import Mathlib

/-!
# Verification of the Open Ephys GUI channel/event data model

Shallow embedding of `Source/Processors/Channel/InfoObjects.cpp` (channel
descriptor hierarchy) and of the event codec declared in
`Source/Processors/Events/Events.h`.  C++ member functions that mutate an
object are modelled as state transformers `State → State`; JUCE `String`
is modelled as `List Char`; `float` fields are modelled as `ℚ` (every value
the claims mention — 1.0, 44100 — is exactly representable); unsigned
machine integers are modelled as `Nat` (the relevant arithmetic never
overflows and bounds are carried explicitly where the wire format needs
them).
-/

namespace InfoObjects

/-- JUCE `String`, modelled as a list of characters. -/
abbrev JStr := List Char

/-- Minimal model of `GenericProcessor` as consumed by `InfoObjects.cpp`:
only `nodeId` / `getNodeId()` and `getName()` are read. -/
structure GenericProcessor where
  nodeId : Nat
  name : JStr
deriving DecidableEq, Repr

/-- `NodeInfoBase` (`InfoObjects.cpp` line 33): records the current node id. -/
structure NodeInfoBase where
  m_nodeID : Nat
deriving DecidableEq, Repr

/-- `NodeInfoBase::getCurrentNodeID`. -/
def NodeInfoBase.getCurrentNodeID (n : NodeInfoBase) : Nat := n.m_nodeID

/-- `HistoryObject` with its `m_historicString` field. -/
structure HistoryObject where
  m_historicString : JStr
deriving DecidableEq, Repr

/-- `HistoryObject::getHistoricString`. -/
def HistoryObject.getHistoricString (h : HistoryObject) : JStr := h.m_historicString

/-- `HistoryObject::addToHistoricString` (`InfoObjects.cpp` lines 48-54):
if the historic string is empty it becomes `entry`, otherwise
`" -> " + entry` is appended. -/
def HistoryObject.addToHistoricString (h : HistoryObject) (entry : JStr) : HistoryObject :=
  if h.m_historicString.isEmpty then { h with m_historicString := entry }
  else { h with m_historicString := h.m_historicString ++ ((" -> ").toList ++ entry) }

/-- `SourceProcessorInfo` (`InfoObjects.cpp` lines 57-63): provenance of a
channel.  The constructor copies `source->nodeId`, the sub-processor index,
and the source's name (twice, per the TODO in the source). -/
structure SourceProcessorInfo where
  m_sourceNodeID : Nat
  m_sourceSubNodeIndex : Nat
  m_sourceType : JStr
  m_sourceName : JStr
deriving DecidableEq, Repr

/-- `SourceProcessorInfo::SourceProcessorInfo(const GenericProcessor*, uint16)`. -/
def SourceProcessorInfo.ofSource (source : GenericProcessor) (subproc : Nat) :
    SourceProcessorInfo :=
  { m_sourceNodeID := source.nodeId
    m_sourceSubNodeIndex := subproc
    m_sourceType := source.name
    m_sourceName := source.name }

def SourceProcessorInfo.getSourceNodeID (s : SourceProcessorInfo) : Nat := s.m_sourceNodeID

def SourceProcessorInfo.getSubProcessorIdx (s : SourceProcessorInfo) : Nat :=
  s.m_sourceSubNodeIndex

def SourceProcessorInfo.getSourceType (s : SourceProcessorInfo) : JStr := s.m_sourceType

def SourceProcessorInfo.getSourceName (s : SourceProcessorInfo) : JStr := s.m_sourceName

/-- `NamedInfoObject`: name / descriptor / description display metadata. -/
structure NamedInfoObject where
  m_name : JStr
  m_descriptor : JStr
  m_description : JStr
deriving DecidableEq, Repr

/-- `InfoObjectCommon` (`InfoObjects.cpp` lines 117-123) composes
`NodeInfoBase`, `SourceProcessorInfo` and `NamedInfoObject` and adds the
source/type indices and the sample rate. -/
structure InfoObjectCommon extends NodeInfoBase, SourceProcessorInfo, NamedInfoObject where
  m_sourceIndex : Nat
  m_sourceTypeIndex : Nat
  m_sampleRate : ℚ
deriving DecidableEq, Repr

/-- `InfoObjectCommon::setSampleRate`. -/
def InfoObjectCommon.setSampleRate (o : InfoObjectCommon) (sampleRate : ℚ) :
    InfoObjectCommon :=
  { o with m_sampleRate := sampleRate }

def InfoObjectCommon.getSampleRate (o : InfoObjectCommon) : ℚ := o.m_sampleRate

def InfoObjectCommon.getSourceIndex (o : InfoObjectCommon) : Nat := o.m_sourceIndex

def InfoObjectCommon.getSourceTypeIndex (o : InfoObjectCommon) : Nat := o.m_sourceTypeIndex

/-- `DataChannel::DataChannelTypes` (spec section 3: Headstage, Aux, ADC). -/
inductive DataChannelTypes where
  | HEADSTAGE_CHANNEL
  | AUX_CHANNEL
  | ADC_CHANNEL
deriving DecidableEq, Repr

/-- `DataChannel` descriptor.  `MetaDataInfoObject`'s content is not defined
in the sources at hand; it is carried as an abstract payload that the copy
constructor copies wholesale. -/
structure DataChannel extends InfoObjectCommon, HistoryObject where
  m_metaData : List Nat
  m_type : DataChannelTypes
  m_bitVolts : ℚ
  m_isEnabled : Bool
  m_isMonitored : Bool
  m_isRecording : Bool
deriving DecidableEq, Repr

/-- `DataChannel::DataChannel(const DataChannel&)` (`InfoObjects.cpp` lines
154-164): copies every base subobject plus `m_type` and `m_bitVolts`, and
initializes the three runtime flags to `true`, `false`, `false`. -/
def DataChannel.copyConstruct (ch : DataChannel) : DataChannel :=
  { ch with
    m_isEnabled := true
    m_isMonitored := false
    m_isRecording := false }

/-- `DataChannel::reset` (`InfoObjects.cpp` lines 215-222). -/
def DataChannel.reset (ch : DataChannel) : DataChannel :=
  { ch with
    m_bitVolts := 1
    m_isEnabled := true
    m_isMonitored := false
    m_isRecording := false
    toInfoObjectCommon := ch.toInfoObjectCommon.setSampleRate 44100 }

def DataChannel.getBitVolts (ch : DataChannel) : ℚ := ch.m_bitVolts

def DataChannel.getChannelType (ch : DataChannel) : DataChannelTypes := ch.m_type

def DataChannel.isEnabled (ch : DataChannel) : Bool := ch.m_isEnabled

def DataChannel.isMonitored (ch : DataChannel) : Bool := ch.m_isMonitored

def DataChannel.getRecordState (ch : DataChannel) : Bool := ch.m_isRecording

/-- `EventChannel::EventChannelTypes`: TTL, text and the eight integer
array element kinds. -/
inductive EventChannelTypes where
  | TTL
  | TEXT
  | INT8_ARRAY
  | UINT8_ARRAY
  | INT16_ARRAY
  | UINT16_ARRAY
  | INT32_ARRAY
  | UINT32_ARRAY
  | INT64_ARRAY
  | UINT64_ARRAY
deriving DecidableEq, Repr

/-- `EventChannel` descriptor. -/
structure EventChannel extends InfoObjectCommon where
  m_type : EventChannelTypes
  m_numChannels : Nat
  m_length : Nat
  m_dataSize : Nat
  m_shouldBeRecorded : Bool
deriving DecidableEq, Repr

def EventChannel.getChannelType (ch : EventChannel) : EventChannelTypes := ch.m_type

def EventChannel.getNumChannels (ch : EventChannel) : Nat := ch.m_numChannels

def EventChannel.getLength (ch : EventChannel) : Nat := ch.m_length

def EventChannel.getDataSize (ch : EventChannel) : Nat := ch.m_dataSize

/-- `EventChannel::getTypeByteSize` (`InfoObjects.cpp` lines 287-301):
byte width of each array element kind; the switch's `default` returns
`sizeof(char) = 1`, covering `TTL` and `TEXT`. -/
def EventChannel.getTypeByteSize : EventChannelTypes → Nat
  | .INT8_ARRAY => 1
  | .UINT8_ARRAY => 1
  | .INT16_ARRAY => 2
  | .UINT16_ARRAY => 2
  | .INT32_ARRAY => 4
  | .UINT32_ARRAY => 4
  | .INT64_ARRAY => 8
  | .UINT64_ARRAY => 8
  | .TTL => 1
  | .TEXT => 1

/-- `EventChannel::setNumChannels` (`InfoObjects.cpp` lines 240-249):
always stores the channel count; when the channel is TTL it additionally
recomputes `m_length = (numChannels + 7) / 8` (bytes needed to hold one bit
per channel) and `m_dataSize = m_length`.  Both the parameter and
`m_length` are `unsigned int` in the source, so the argument and the sum
`numChannels + 7` are reduced modulo `2 ^ 32`, exactly as the 32-bit
unsigned arithmetic wraps (the quotient then fits an `unsigned int`, and
the `size_t` assignment to `m_dataSize` is exact). -/
def EventChannel.setNumChannels (ch : EventChannel) (numChannels : Nat) : EventChannel :=
  let n := numChannels % 2 ^ 32
  let ch' := { ch with m_numChannels := n }
  if ch'.m_type = .TTL then
    { ch' with
      m_length := (n + 7) % 2 ^ 32 / 8
      m_dataSize := (n + 7) % 2 ^ 32 / 8 }
  else ch'

/-- `EventChannel::setLength` (`InfoObjects.cpp` lines 256-265): does
nothing for TTL channels; otherwise stores the length and recomputes
`m_dataSize = length * getTypeByteSize(type)`, adding one byte for the null
terminator on TEXT channels. -/
def EventChannel.setLength (ch : EventChannel) (length : Nat) : EventChannel :=
  if ch.m_type = .TTL then ch
  else
    let ds := length * EventChannel.getTypeByteSize ch.m_type
    { ch with
      m_length := length
      m_dataSize := if ch.m_type = .TEXT then ds + 1 else ds }

/-- `SpikeChannel::ElectrodeTypes`. -/
inductive ElectrodeTypes where
  | SINGLE
  | STEREOTRODE
  | TETRODE
deriving DecidableEq, Repr

/-- `sourceChannelInfo`: identity triple of a spike source site. -/
structure SourceChannelInfo where
  processorID : Nat
  subProcessorID : Nat
  channelIDX : Nat
deriving DecidableEq, Repr

/-- Static `SpikeChannel::getNumChannels(ElectrodeTypes)` (`InfoObjects.cpp`
lines 371-380). -/
def SpikeChannel.getNumChannelsFor : ElectrodeTypes → Nat
  | .SINGLE => 1
  | .STEREOTRODE => 2
  | .TETRODE => 4

/-- `SpikeChannel` descriptor. -/
structure SpikeChannel extends InfoObjectCommon where
  m_type : ElectrodeTypes
  m_sourceInfo : List SourceChannelInfo
  m_gain : ℚ
  m_numPreSamples : Nat
  m_numPostSamples : Nat
deriving DecidableEq, Repr

def SpikeChannel.getChannelType (ch : SpikeChannel) : ElectrodeTypes := ch.m_type

def SpikeChannel.getNumChannels (ch : SpikeChannel) : Nat :=
  SpikeChannel.getNumChannelsFor ch.m_type

def SpikeChannel.getTotalSamples (ch : SpikeChannel) : Nat :=
  ch.m_numPostSamples + ch.m_numPreSamples

/-- `SpikeChannel::SpikeChannel` (`InfoObjects.cpp` lines 305-320).  The
constructor asserts `jassert(n == getNumChannels(type))` on the size of the
source-channel array; the assertion is modelled as construction failure
(`none`).  On success each source channel contributes its identity triple. -/
def SpikeChannel.create (type_ : ElectrodeTypes) (idx typeidx : Nat)
    (source : GenericProcessor) (sourceChannels : List DataChannel) (subproc : Nat) :
    Option SpikeChannel :=
  if sourceChannels.length = SpikeChannel.getNumChannelsFor type_ then
    some
      { toNodeInfoBase := ⟨source.nodeId⟩
        toSourceProcessorInfo := SourceProcessorInfo.ofSource source subproc
        toNamedInfoObject := ⟨[], [], []⟩
        m_sourceIndex := idx
        m_sourceTypeIndex := typeidx
        m_sampleRate := 0
        m_type := type_
        m_sourceInfo := sourceChannels.map fun chan =>
          { processorID := chan.toSourceProcessorInfo.getSourceNodeID
            subProcessorID := chan.toSourceProcessorInfo.getSubProcessorIdx
            channelIDX := chan.toInfoObjectCommon.getSourceIndex }
        m_gain := 0
        m_numPreSamples := 0
        m_numPostSamples := 0 }
  else none

/-! ### Event codec

`Events.h` declares `serialize` / `deserializeFromMessage` for the event
hierarchy (`TTLEvent`, `TextEvent`, `BinaryEvent`, `SpikeEvent`), but the
implementation file `Events.cpp` is not among the sources at hand, so the
codec below is modelled from the spec: the fixed header layout of spec
section 4.3 (EventType 1 byte, SubType 1 byte, source processor id 2 bytes,
source sub-stream 2 bytes, source event index 2 bytes, virtual channel
2 bytes, timestamp 8 bytes, then the payload whose size is implied by the
descriptor), the per-variant payload rules of section 4.4, and the
validation rules of the deserialization paragraph.  The spec leaves the
byte order to the implementer as long as it is consistent; little-endian
is used throughout. -/

/-- `bytesLE k v`: the `k` little-endian bytes of `v` (truncating above
`256 ^ k`). -/
def bytesLE : Nat → Nat → List Nat
  | 0, _ => []
  | k + 1, v => v % 256 :: bytesLE k (v / 256)

/-- `unBytesLE bs`: the number whose little-endian bytes are `bs`. -/
def unBytesLE : List Nat → Nat
  | [] => 0
  | b :: bs => b + 256 * unBytesLE bs

/-- Read a `k`-byte little-endian field off the front of a byte list;
fails when the list is too short (truncated packet). -/
def readField (k : Nat) (bs : List Nat) : Option (Nat × List Nat) :=
  if k ≤ bs.length then some (unBytesLE (bs.take k), bs.drop k) else none

/-- Serialize a list of numeric elements, `sz` little-endian bytes each. -/
def encodeElems (sz : Nat) : List Nat → List Nat
  | [] => []
  | e :: es => bytesLE sz e ++ encodeElems sz es

/-- Deserialize `n` numeric elements of `sz` bytes each off a byte list. -/
def decodeElems (sz : Nat) : Nat → List Nat → List Nat
  | 0, _ => []
  | n + 1, bs => unBytesLE (bs.take sz) :: decodeElems sz n (bs.drop sz)

/-- Modelled from the spec: the wire `SubType` tag of a processor event is
the event channel type of its descriptor (one byte). -/
def subTypeTag : EventChannelTypes → Nat
  | .TTL => 0
  | .TEXT => 1
  | .INT8_ARRAY => 2
  | .UINT8_ARRAY => 3
  | .INT16_ARRAY => 4
  | .UINT16_ARRAY => 5
  | .INT32_ARRAY => 6
  | .UINT32_ARRAY => 7
  | .INT64_ARRAY => 8
  | .UINT64_ARRAY => 9

/-- Modelled from the spec: the wire `SubType` tag of a spike event is the
electrode type (`Single = 1, Stereotrode = 2, Tetrode = 4`). -/
def electrodeTag : ElectrodeTypes → Nat
  | .SINGLE => 1
  | .STEREOTRODE => 2
  | .TETRODE => 4

/-- Modelled from the spec (section 4.4): payload byte count implied by an
event channel descriptor — the full bit-packed word (`dataSize`) for TTL,
`length` UTF-8 bytes plus the null terminator for TEXT, and
`length * elementByteSize(type)` for the array kinds. -/
def EventChannel.payloadSize (ch : EventChannel) : Nat :=
  if ch.m_type = .TTL then ch.m_dataSize
  else if ch.m_type = .TEXT then ch.m_length + 1
  else ch.m_length * EventChannel.getTypeByteSize ch.m_type

/-- Modelled from the spec (section 4.4): spike payload is a 32-bit
threshold followed by `channelCount * (preSamples + postSamples)` 32-bit
samples. -/
def SpikeChannel.payloadSize (ch : SpikeChannel) : Nat :=
  4 + 4 * (ch.getNumChannels * ch.getTotalSamples)

/-- In-memory typed events, one constructor per variant of `Events.h`:
`TTLEvent` (bit-packed word bytes), `TextEvent` (UTF-8 code units),
`BinaryEvent` (numeric elements of the descriptor's element type) and
`SpikeEvent` (threshold plus 32-bit waveform samples). -/
inductive WireEvent where
  | ttl (timestamp channel : Nat) (word : List Nat)
  | text (timestamp channel : Nat) (txt : List Nat)
  | binary (timestamp channel : Nat) (data : List Nat)
  | spike (timestamp threshold : Nat) (waveform : List Nat)
deriving DecidableEq, Repr

/-- The descriptor an event is built against: an `EventChannel` for the
processor-event variants, a `SpikeChannel` for spike events. -/
inductive Descriptor where
  | ev (ch : EventChannel)
  | sp (ch : SpikeChannel)
deriving DecidableEq, Repr

/-- Modelled from the spec (section 4.3): the 18-byte fixed packet header. -/
def header18 (et st src sub idx vch ts : Nat) : List Nat :=
  bytesLE 1 et ++ bytesLE 1 st ++ bytesLE 2 src ++ bytesLE 2 sub
    ++ bytesLE 2 idx ++ bytesLE 2 vch ++ bytesLE 8 ts

/-- Modelled from the spec: `serialize` for each event variant — the fixed
header (EventType 1 for processor events, 2 for spikes; SubType from the
descriptor; source identity from the descriptor; the event's virtual
channel and timestamp) followed by the variant payload: the raw TTL word,
the text null-padded to `length + 1` bytes, the dense element array, or
the threshold plus waveform.  A variant paired with the wrong descriptor
kind has no encoding (returns the empty packet, which never decodes). -/
def encodeEvent : WireEvent → Descriptor → List Nat
  | .ttl ts ch word, .ev evc =>
      header18 1 (subTypeTag evc.m_type) evc.m_sourceNodeID
        evc.m_sourceSubNodeIndex evc.m_sourceIndex ch ts ++ word
  | .text ts ch txt, .ev evc =>
      header18 1 (subTypeTag evc.m_type) evc.m_sourceNodeID
        evc.m_sourceSubNodeIndex evc.m_sourceIndex ch ts
        ++ (txt ++ List.replicate (evc.m_length + 1 - txt.length) 0)
  | .binary ts ch data, .ev evc =>
      header18 1 (subTypeTag evc.m_type) evc.m_sourceNodeID
        evc.m_sourceSubNodeIndex evc.m_sourceIndex ch ts
        ++ encodeElems (EventChannel.getTypeByteSize evc.m_type) data
  | .spike ts thr wave, .sp spc =>
      header18 2 (electrodeTag spc.m_type) spc.m_sourceNodeID
        spc.m_sourceSubNodeIndex spc.m_sourceIndex 0 ts
        ++ (bytesLE 4 thr ++ encodeElems 4 wave)
  | _, _ => []

/-- Modelled from the spec: `deserializeFromMessage` — parse the fixed
header, check the event type and sub-type tags, validate the embedded
source identity against the supplied descriptor and the payload size
against the descriptor's implied size, then decode the variant payload
(text stops at the null terminator or the declared length).  Any mismatch
or truncation fails the whole deserialization (`none`). -/
def decodeEvent (msg : List Nat) (d : Descriptor) : Option WireEvent :=
  (readField 1 msg).bind fun p1 =>
  (readField 1 p1.2).bind fun p2 =>
  (readField 2 p2.2).bind fun p3 =>
  (readField 2 p3.2).bind fun p4 =>
  (readField 2 p4.2).bind fun p5 =>
  (readField 2 p5.2).bind fun p6 =>
  (readField 8 p6.2).bind fun p7 =>
  match d with
  | .ev evc =>
      if p1.1 = 1 ∧ p2.1 = subTypeTag evc.m_type
          ∧ p3.1 = evc.m_sourceNodeID ∧ p4.1 = evc.m_sourceSubNodeIndex
          ∧ p5.1 = evc.m_sourceIndex ∧ p7.2.length = evc.payloadSize then
        if evc.m_type = .TTL then some (.ttl p7.1 p6.1 p7.2)
        else if evc.m_type = .TEXT then some (.text p7.1 p6.1
            ((p7.2.take evc.m_length).takeWhile fun b => b != 0))
        else some (.binary p7.1 p6.1
            (decodeElems (EventChannel.getTypeByteSize evc.m_type) evc.m_length p7.2))
      else none
  | .sp spc =>
      if p1.1 = 2 ∧ p2.1 = electrodeTag spc.m_type
          ∧ p3.1 = spc.m_sourceNodeID ∧ p4.1 = spc.m_sourceSubNodeIndex
          ∧ p5.1 = spc.m_sourceIndex ∧ p7.2.length = spc.payloadSize then
        some (.spike p7.1 (unBytesLE (p7.2.take 4))
          (decodeElems 4 (spc.getNumChannels * spc.getTotalSamples) (p7.2.drop 4)))
      else none

/-- The u16 source-identity fields of a descriptor fit in two bytes. -/
def sourceBounds (src sub idx : Nat) : Prop :=
  src < 2 ^ 16 ∧ sub < 2 ^ 16 ∧ idx < 2 ^ 16

/-- An event built against a matching descriptor: the descriptor kind and
channel type match the variant, the payload has the size the descriptor
declares, every payload element fits its wire width, and the u16/u64
header fields are in range (they are machine integers in the source). -/
def wellFormedEvent : WireEvent → Descriptor → Prop
  | .ttl ts ch word, .ev evc =>
      evc.m_type = .TTL ∧ word.length = evc.m_dataSize
      ∧ (∀ b ∈ word, b < 256)
      ∧ ts < 2 ^ 64 ∧ ch < 2 ^ 16
      ∧ sourceBounds evc.m_sourceNodeID evc.m_sourceSubNodeIndex evc.m_sourceIndex
  | .text ts ch txt, .ev evc =>
      evc.m_type = .TEXT ∧ txt.length ≤ evc.m_length
      ∧ (∀ b ∈ txt, 0 < b ∧ b < 256)
      ∧ ts < 2 ^ 64 ∧ ch < 2 ^ 16
      ∧ sourceBounds evc.m_sourceNodeID evc.m_sourceSubNodeIndex evc.m_sourceIndex
  | .binary ts ch data, .ev evc =>
      evc.m_type ≠ .TTL ∧ evc.m_type ≠ .TEXT ∧ data.length = evc.m_length
      ∧ (∀ e ∈ data, e < 256 ^ EventChannel.getTypeByteSize evc.m_type)
      ∧ ts < 2 ^ 64 ∧ ch < 2 ^ 16
      ∧ sourceBounds evc.m_sourceNodeID evc.m_sourceSubNodeIndex evc.m_sourceIndex
  | .spike ts thr wave, .sp spc =>
      wave.length = spc.getNumChannels * spc.getTotalSamples
      ∧ (∀ e ∈ wave, e < 2 ^ 32) ∧ thr < 2 ^ 32
      ∧ ts < 2 ^ 64
      ∧ sourceBounds spc.m_sourceNodeID spc.m_sourceSubNodeIndex spc.m_sourceIndex
  | _, _ => False

/-! ### Concrete sample descriptors used by the witness theorems -/

/-- A concrete `InfoObjectCommon` used to instantiate witnesses. -/
def sampleCommon : InfoObjectCommon :=
  { m_nodeID := 5
    m_sourceNodeID := 5
    m_sourceSubNodeIndex := 0
    m_sourceType := []
    m_sourceName := []
    m_name := []
    m_descriptor := []
    m_description := []
    m_sourceIndex := 3
    m_sourceTypeIndex := 1
    m_sampleRate := 44100 }

/-- A concrete TTL event channel. -/
def sampleTTLChan : EventChannel :=
  { toInfoObjectCommon := sampleCommon
    m_type := .TTL
    m_numChannels := 8
    m_length := 1
    m_dataSize := 1
    m_shouldBeRecorded := false }

/-- A concrete TEXT event channel. -/
def sampleTextChan : EventChannel :=
  { toInfoObjectCommon := sampleCommon
    m_type := .TEXT
    m_numChannels := 1
    m_length := 10
    m_dataSize := 11
    m_shouldBeRecorded := false }

/-- A concrete INT32_ARRAY event channel. -/
def sampleBinChan : EventChannel :=
  { toInfoObjectCommon := sampleCommon
    m_type := .INT32_ARRAY
    m_numChannels := 1
    m_length := 3
    m_dataSize := 12
    m_shouldBeRecorded := false }

/-- A concrete SINGLE-electrode spike channel (1 site, 2 pre- and 3
post-peak samples). -/
def sampleSpikeChan : SpikeChannel :=
  { toInfoObjectCommon := sampleCommon
    m_type := .SINGLE
    m_sourceInfo := [⟨5, 0, 3⟩]
    m_gain := 1
    m_numPreSamples := 2
    m_numPostSamples := 3 }

/-- A concrete data channel with non-default runtime flags. -/
def sampleDataChan : DataChannel :=
  { toInfoObjectCommon := sampleCommon
    m_historicString := []
    m_metaData := []
    m_type := .HEADSTAGE_CHANNEL
    m_bitVolts := 2
    m_isEnabled := false
    m_isMonitored := true
    m_isRecording := true }

end InfoObjects

/-! ## Theorems about the channel descriptor model -/

namespace InfoObjects

/-- C1 (amended): `EventChannel::setNumChannels(n)` on a TTL channel
recomputes `length = ceil(n / 8)` (stated both as `(n + 7) / 8` and by the
defining inequalities `n ≤ 8 * length < n + 8`) and sets
`dataSize = length`, provided the source's 32-bit unsigned sum
`numChannels + 7` does not wrap, i.e. `n + 7 < 2 ^ 32`; on a non-TTL
channel `length` and `dataSize` keep their prior values.  The concrete
examples: `numChannels = 12` gives `length = dataSize = 2`, `16` gives
`2`, `17` gives `3`.  Without the no-wrap bound the rule fails at the
representable inputs `2 ^ 32 - 7 ≤ n ≤ 2 ^ 32 - 1`, where the program
sets `length = 0` (see the counterexample theorem). -/
theorem setNumChannels_sizing (ch : EventChannel) (n : Nat) :
    (ch.m_type = .TTL → n + 7 < 2 ^ 32 →
      (ch.setNumChannels n).m_length = (n + 7) / 8
      ∧ (ch.setNumChannels n).m_dataSize = (ch.setNumChannels n).m_length
      ∧ n ≤ 8 * (ch.setNumChannels n).m_length
      ∧ 8 * (ch.setNumChannels n).m_length < n + 8
      ∧ (ch.setNumChannels 12).m_length = 2 ∧ (ch.setNumChannels 12).m_dataSize = 2
      ∧ (ch.setNumChannels 16).m_length = 2 ∧ (ch.setNumChannels 16).m_dataSize = 2
      ∧ (ch.setNumChannels 17).m_length = 3 ∧ (ch.setNumChannels 17).m_dataSize = 3)
    ∧ (ch.m_type ≠ .TTL →
      (ch.setNumChannels n).m_length = ch.m_length
      ∧ (ch.setNumChannels n).m_dataSize = ch.m_dataSize) := by
  constructor
  · intro h hn
    have hm : n % 2 ^ 32 = n := Nat.mod_eq_of_lt (by omega)
    have hm7 : (n + 7) % 2 ^ 32 = n + 7 := Nat.mod_eq_of_lt hn
    refine ⟨?_, ?_, ?_, ?_, ?_, ?_, ?_, ?_, ?_, ?_⟩ <;>
      simp [EventChannel.setNumChannels, h, hm, hm7] <;> omega
  · intro h
    simp [EventChannel.setNumChannels, h]

/-- Witness for C1: both branches of `setNumChannels_sizing` instantiated
at concrete channels, with the no-wrap bound discharged at `n = 12`. -/
theorem setNumChannels_sizing_witness :
    sampleTTLChan.m_type = .TTL
    ∧ 12 + 7 < 2 ^ 32
    ∧ (sampleTTLChan.setNumChannels 12).m_length = 2
    ∧ sampleBinChan.m_type ≠ .TTL
    ∧ (sampleBinChan.setNumChannels 12).m_length = sampleBinChan.m_length :=
  ⟨rfl, by decide,
   ((setNumChannels_sizing sampleTTLChan 12).1 rfl (by decide)).2.2.2.2.1,
   by decide, ((setNumChannels_sizing sampleBinChan 12).2 (by decide)).1⟩

/-- Counterexample for C1 as originally stated: at the representable input
`numChannels = 4294967295 = 2 ^ 32 - 1` the source's unsigned sum
`numChannels + 7` wraps to `6`, so a TTL channel gets
`length = dataSize = 6 / 8 = 0` instead of
`ceil(4294967295 / 8) = 536870912`. -/
theorem setNumChannels_sizing_counterexample :
    4294967295 < 2 ^ 32
    ∧ sampleTTLChan.m_type = EventChannelTypes.TTL
    ∧ (sampleTTLChan.setNumChannels 4294967295).m_length = 0
    ∧ (sampleTTLChan.setNumChannels 4294967295).m_dataSize = 0
    ∧ (4294967295 + 7) / 8 = 536870912
    ∧ (sampleTTLChan.setNumChannels 4294967295).m_length ≠ (4294967295 + 7) / 8 := by
  decide

/-- C3: `EventChannel::setLength(L)` on a non-TTL channel sets
`length = L` and `dataSize = L * elementByteSize(type)`, plus exactly one
extra byte when the type is TEXT. -/
theorem setLength_sizing (ch : EventChannel) (L : Nat) (h : ch.m_type ≠ .TTL) :
    (ch.setLength L).m_length = L
    ∧ (ch.setLength L).m_dataSize =
        L * EventChannel.getTypeByteSize ch.m_type
          + (if ch.m_type = .TEXT then 1 else 0) := by
  constructor
  · simp [EventChannel.setLength, h]
  · simp only [EventChannel.setLength, if_neg h]
    split <;> simp

/-- Witness for C3: `setLength 10` on a concrete TEXT channel gives
`length = 10` and `dataSize = 11`. -/
theorem setLength_sizing_witness :
    sampleTextChan.m_type ≠ .TTL
    ∧ (sampleTextChan.setLength 10).m_length = 10
    ∧ (sampleTextChan.setLength 10).m_dataSize =
        10 * EventChannel.getTypeByteSize sampleTextChan.m_type
          + (if sampleTextChan.m_type = .TEXT then 1 else 0) :=
  ⟨by decide, (setLength_sizing sampleTextChan 10 (by decide)).1,
   (setLength_sizing sampleTextChan 10 (by decide)).2⟩

/-- C4: `EventChannel::setLength(L)` on a TTL channel is a no-op: the whole
channel record, and in particular `length`, `dataSize` and `numChannels`,
is unchanged. -/
theorem setLength_ttl_noop (ch : EventChannel) (L : Nat) (h : ch.m_type = .TTL) :
    ch.setLength L = ch
    ∧ (ch.setLength L).m_length = ch.m_length
    ∧ (ch.setLength L).m_dataSize = ch.m_dataSize
    ∧ (ch.setLength L).m_numChannels = ch.m_numChannels := by
  simp [EventChannel.setLength, h]

/-- Witness for C4: `setLength 5` on a concrete TTL channel. -/
theorem setLength_ttl_noop_witness :
    sampleTTLChan.m_type = .TTL
    ∧ sampleTTLChan.setLength 5 = sampleTTLChan
    ∧ (sampleTTLChan.setLength 5).m_length = sampleTTLChan.m_length
    ∧ (sampleTTLChan.setLength 5).m_dataSize = sampleTTLChan.m_dataSize
    ∧ (sampleTTLChan.setLength 5).m_numChannels = sampleTTLChan.m_numChannels :=
  ⟨rfl, setLength_ttl_noop sampleTTLChan 5 rfl⟩

/-- C5: `EventChannel::getTypeByteSize` on every constructor of the closed
event-channel type enum: the eight integer array kinds map to their element
byte widths and both non-array kinds (TTL, TEXT) map to 1. -/
theorem getTypeByteSize_total :
    EventChannel.getTypeByteSize .INT8_ARRAY = 1
    ∧ EventChannel.getTypeByteSize .UINT8_ARRAY = 1
    ∧ EventChannel.getTypeByteSize .INT16_ARRAY = 2
    ∧ EventChannel.getTypeByteSize .UINT16_ARRAY = 2
    ∧ EventChannel.getTypeByteSize .INT32_ARRAY = 4
    ∧ EventChannel.getTypeByteSize .UINT32_ARRAY = 4
    ∧ EventChannel.getTypeByteSize .INT64_ARRAY = 8
    ∧ EventChannel.getTypeByteSize .UINT64_ARRAY = 8
    ∧ EventChannel.getTypeByteSize .TTL = 1
    ∧ EventChannel.getTypeByteSize .TEXT = 1 := by
  decide

/-- C6: constructing a `SpikeChannel` with a source-site list whose length
differs from `channelCountFor(electrodeType)` fails (the source's `jassert`
is modelled as construction failure), for every electrode type; and
`channelCountFor` maps SINGLE to 1, STEREOTRODE to 2, TETRODE to 4. -/
theorem spikeChannel_siteCount_contract (t : ElectrodeTypes)
    (idx typeidx : Nat) (source : GenericProcessor)
    (sites : List DataChannel) (subproc : Nat)
    (h : sites.length ≠ SpikeChannel.getNumChannelsFor t) :
    SpikeChannel.create t idx typeidx source sites subproc = none
    ∧ SpikeChannel.getNumChannelsFor .SINGLE = 1
    ∧ SpikeChannel.getNumChannelsFor .STEREOTRODE = 2
    ∧ SpikeChannel.getNumChannelsFor .TETRODE = 4 := by
  refine ⟨?_, rfl, rfl, rfl⟩
  simp [SpikeChannel.create, h]

/-- Witness for C6: an empty site list fails to build a SINGLE (1-site)
spike channel. -/
theorem spikeChannel_siteCount_contract_witness :
    ([] : List DataChannel).length ≠ SpikeChannel.getNumChannelsFor .SINGLE
    ∧ SpikeChannel.create .SINGLE 0 0 ⟨1, []⟩ [] 0 = none
    ∧ SpikeChannel.getNumChannelsFor .SINGLE = 1
    ∧ SpikeChannel.getNumChannelsFor .STEREOTRODE = 2
    ∧ SpikeChannel.getNumChannelsFor .TETRODE = 4 :=
  ⟨by decide, spikeChannel_siteCount_contract .SINGLE 0 0 ⟨1, []⟩ [] 0 (by decide)⟩

/-- C7: the `DataChannel` copy constructor always produces a copy with
`enabled = true`, `monitored = false`, `recordingEnabled = false`,
regardless of the source channel's flags. -/
theorem dataChannel_copy_resets_flags (ch : DataChannel) :
    ch.copyConstruct.m_isEnabled = true
    ∧ ch.copyConstruct.m_isMonitored = false
    ∧ ch.copyConstruct.m_isRecording = false := by
  simp [DataChannel.copyConstruct]

/-- C8: `DataChannel::reset()` leaves the channel with `bitVolts = 1.0`,
`sampleRate = 44100`, `enabled = true`, `monitored = false`,
`recordingEnabled = false`, from any starting state. -/
theorem dataChannel_reset_defaults (ch : DataChannel) :
    ch.reset.m_bitVolts = 1
    ∧ ch.reset.m_sampleRate = 44100
    ∧ ch.reset.m_isEnabled = true
    ∧ ch.reset.m_isMonitored = false
    ∧ ch.reset.m_isRecording = false := by
  simp [DataChannel.reset, InfoObjectCommon.setSampleRate]

/-- C9: `HistoryObject::addToHistoricString(E)` sets the historic string to
`prior ++ " -> " ++ E` when the prior string is non-empty and to `E` alone
when empty, and the prior string is always a prefix of the new one (the
trail never shrinks). -/
theorem addToHistoricString_appends (h : HistoryObject) (entry : JStr) :
    (h.addToHistoricString entry).m_historicString =
      (if h.m_historicString.isEmpty then entry
       else h.m_historicString ++ ((" -> ").toList ++ entry))
    ∧ h.m_historicString <+: (h.addToHistoricString entry).m_historicString := by
  unfold HistoryObject.addToHistoricString
  split
  · next he =>
    refine ⟨by simp [he], ?_⟩
    simp only [List.isEmpty_iff] at he
    simp [he]
  · next he =>
    exact ⟨by simp [he], List.prefix_append _ _⟩

/-- C10: the `DataChannel` copy constructor copies every field other than
the three runtime flags: channel type, bitVolts, source/type indices, node
identity, provenance, sample rate, display metadata, history and metadata
payload all equal the original's. -/
theorem dataChannel_copy_frame (ch : DataChannel) :
    ch.copyConstruct.m_type = ch.m_type
    ∧ ch.copyConstruct.m_bitVolts = ch.m_bitVolts
    ∧ ch.copyConstruct.m_sourceIndex = ch.m_sourceIndex
    ∧ ch.copyConstruct.m_sourceTypeIndex = ch.m_sourceTypeIndex
    ∧ ch.copyConstruct.m_nodeID = ch.m_nodeID
    ∧ ch.copyConstruct.m_sourceNodeID = ch.m_sourceNodeID
    ∧ ch.copyConstruct.m_sourceSubNodeIndex = ch.m_sourceSubNodeIndex
    ∧ ch.copyConstruct.m_sourceType = ch.m_sourceType
    ∧ ch.copyConstruct.m_sourceName = ch.m_sourceName
    ∧ ch.copyConstruct.m_sampleRate = ch.m_sampleRate
    ∧ ch.copyConstruct.m_name = ch.m_name
    ∧ ch.copyConstruct.m_descriptor = ch.m_descriptor
    ∧ ch.copyConstruct.m_description = ch.m_description
    ∧ ch.copyConstruct.m_historicString = ch.m_historicString
    ∧ ch.copyConstruct.m_metaData = ch.m_metaData := by
  simp [DataChannel.copyConstruct]

/-! ### Codec helper lemmas -/

theorem bytesLE_length (k v : Nat) : (bytesLE k v).length = k := by
  induction k generalizing v with
  | zero => rfl
  | succ n ih => simp [bytesLE, ih]

theorem unBytesLE_bytesLE (k v : Nat) : unBytesLE (bytesLE k v) = v % 256 ^ k := by
  induction k generalizing v with
  | zero => simp [bytesLE, unBytesLE, Nat.mod_one]
  | succ n ih =>
    simp only [bytesLE, unBytesLE, ih]
    rw [pow_succ', Nat.mod_mul]

theorem readField_exact (k v : Nat) (rest : List Nat) :
    readField k (bytesLE k v ++ rest) = some (v % 256 ^ k, rest) := by
  unfold readField
  rw [if_pos]
  · rw [List.take_left' (bytesLE_length k v), List.drop_left' (bytesLE_length k v),
      unBytesLE_bytesLE]
  · simp [bytesLE_length]

theorem encodeElems_length (sz : Nat) (es : List Nat) :
    (encodeElems sz es).length = es.length * sz := by
  induction es with
  | nil => simp [encodeElems]
  | cons e es ih =>
    simp only [encodeElems, List.length_append, bytesLE_length, ih, List.length_cons]
    rw [Nat.succ_mul]
    omega

theorem decodeElems_encodeElems (sz : Nat) (es rest : List Nat)
    (h : ∀ e ∈ es, e < 256 ^ sz) :
    decodeElems sz es.length (encodeElems sz es ++ rest) = es := by
  induction es generalizing rest with
  | nil => rfl
  | cons e es ih =>
    simp only [encodeElems, List.length_cons, decodeElems, List.append_assoc]
    rw [List.take_left' (bytesLE_length sz e), List.drop_left' (bytesLE_length sz e),
      unBytesLE_bytesLE, Nat.mod_eq_of_lt (h e (List.mem_cons_self e es)),
      ih rest fun x hx => h x (List.mem_cons_of_mem e hx)]

theorem subTypeTag_lt (t : EventChannelTypes) : subTypeTag t < 256 := by
  cases t <;> decide

theorem electrodeTag_lt (t : ElectrodeTypes) : electrodeTag t < 256 := by
  cases t <;> decide

theorem take_text_payload (txt : List Nat) (L : Nat) (hle : txt.length ≤ L) :
    (txt ++ List.replicate (L + 1 - txt.length) 0).take L
      = txt ++ List.replicate (L - txt.length) 0 := by
  rw [List.take_append_eq_append_take, List.take_of_length_le hle, List.take_replicate,
    Nat.min_eq_left (by omega)]

theorem takeWhile_append_zeros (txt : List Nat) (k : Nat)
    (h : ∀ b ∈ txt, 0 < b) :
    ((txt ++ List.replicate k 0).takeWhile fun b => b != 0) = txt := by
  induction txt with
  | nil =>
    simp only [List.nil_append]
    cases k with
    | zero => rfl
    | succ n => simp [List.replicate_succ]
  | cons b bs ih =>
    have hb : b ≠ 0 := Nat.pos_iff_ne_zero.mp (h b (List.mem_cons_self b bs))
    have hb' : (b != 0) = true := bne_iff_ne.mpr hb
    simp only [List.cons_append, List.takeWhile_cons, hb', if_true]
    rw [ih fun x hx => h x (List.mem_cons_of_mem b hx)]

/-- Round trip for the TTL variant. -/
theorem roundtrip_ttl (ts ch : Nat) (word : List Nat) (evc : EventChannel)
    (h : wellFormedEvent (.ttl ts ch word) (.ev evc)) :
    decodeEvent (encodeEvent (.ttl ts ch word) (.ev evc)) (.ev evc)
      = some (.ttl ts ch word) := by
  simp only [wellFormedEvent, sourceBounds] at h
  obtain ⟨hty, hlen, _hbytes, hts, hch, hsrc, hsub, hidx⟩ := h
  have hsrc' : evc.m_sourceNodeID % 256 ^ 2 = evc.m_sourceNodeID :=
    Nat.mod_eq_of_lt (by simpa using hsrc)
  have hsub' : evc.m_sourceSubNodeIndex % 256 ^ 2 = evc.m_sourceSubNodeIndex :=
    Nat.mod_eq_of_lt (by simpa using hsub)
  have hidx' : evc.m_sourceIndex % 256 ^ 2 = evc.m_sourceIndex :=
    Nat.mod_eq_of_lt (by simpa using hidx)
  have hts' : ts % 256 ^ 8 = ts := Nat.mod_eq_of_lt (by simpa using hts)
  have hch' : ch % 256 ^ 2 = ch := Nat.mod_eq_of_lt (by simpa using hch)
  simp only [encodeEvent, header18, List.append_assoc]
  simp only [decodeEvent, readField_exact, Option.some_bind]
  simp [hty, subTypeTag, hsrc', hsub', hidx', hts', hch',
    EventChannel.payloadSize, hlen]
  omega

/-- Round trip for the text variant. -/
theorem roundtrip_text (ts ch : Nat) (txt : List Nat) (evc : EventChannel)
    (h : wellFormedEvent (.text ts ch txt) (.ev evc)) :
    decodeEvent (encodeEvent (.text ts ch txt) (.ev evc)) (.ev evc)
      = some (.text ts ch txt) := by
  simp only [wellFormedEvent, sourceBounds] at h
  obtain ⟨hty, hlen, hbytes, hts, hch, hsrc, hsub, hidx⟩ := h
  have hsrc' : evc.m_sourceNodeID % 256 ^ 2 = evc.m_sourceNodeID :=
    Nat.mod_eq_of_lt (by simpa using hsrc)
  have hsub' : evc.m_sourceSubNodeIndex % 256 ^ 2 = evc.m_sourceSubNodeIndex :=
    Nat.mod_eq_of_lt (by simpa using hsub)
  have hidx' : evc.m_sourceIndex % 256 ^ 2 = evc.m_sourceIndex :=
    Nat.mod_eq_of_lt (by simpa using hidx)
  have hts' : ts % 256 ^ 8 = ts := Nat.mod_eq_of_lt (by simpa using hts)
  have hch' : ch % 256 ^ 2 = ch := Nat.mod_eq_of_lt (by simpa using hch)
  have hpl : (txt ++ List.replicate (evc.m_length + 1 - txt.length) 0).length
      = evc.m_length + 1 := by
    simp [List.length_append, List.length_replicate]
    omega
  have hdec : ((txt ++ List.replicate (evc.m_length + 1 - txt.length) 0).take
      evc.m_length).takeWhile (fun b => b != 0) = txt := by
    rw [take_text_payload txt evc.m_length hlen]
    exact takeWhile_append_zeros txt _ fun b hb => (hbytes b hb).1
  simp only [encodeEvent, header18, List.append_assoc]
  simp only [decodeEvent, readField_exact, Option.some_bind]
  simp [hty, subTypeTag, hsrc', hsub', hidx', hts', hch',
    EventChannel.payloadSize, hpl, hdec]
  omega

/-- Round trip for the binary variant. -/
theorem roundtrip_binary (ts ch : Nat) (data : List Nat) (evc : EventChannel)
    (h : wellFormedEvent (.binary ts ch data) (.ev evc)) :
    decodeEvent (encodeEvent (.binary ts ch data) (.ev evc)) (.ev evc)
      = some (.binary ts ch data) := by
  simp only [wellFormedEvent, sourceBounds] at h
  obtain ⟨hTTL, hTEXT, hlen, helems, hts, hch, hsrc, hsub, hidx⟩ := h
  have hsrc' : evc.m_sourceNodeID % 256 ^ 2 = evc.m_sourceNodeID :=
    Nat.mod_eq_of_lt (by simpa using hsrc)
  have hsub' : evc.m_sourceSubNodeIndex % 256 ^ 2 = evc.m_sourceSubNodeIndex :=
    Nat.mod_eq_of_lt (by simpa using hsub)
  have hidx' : evc.m_sourceIndex % 256 ^ 2 = evc.m_sourceIndex :=
    Nat.mod_eq_of_lt (by simpa using hidx)
  have hts' : ts % 256 ^ 8 = ts := Nat.mod_eq_of_lt (by simpa using hts)
  have hch' : ch % 256 ^ 2 = ch := Nat.mod_eq_of_lt (by simpa using hch)
  have htag : subTypeTag evc.m_type % 256 ^ 1 = subTypeTag evc.m_type :=
    Nat.mod_eq_of_lt (by simpa using subTypeTag_lt evc.m_type)
  have hpl : (encodeElems (EventChannel.getTypeByteSize evc.m_type) data).length
      = evc.m_length * EventChannel.getTypeByteSize evc.m_type := by
    rw [encodeElems_length, hlen]
  have hdec : decodeElems (EventChannel.getTypeByteSize evc.m_type) evc.m_length
      (encodeElems (EventChannel.getTypeByteSize evc.m_type) data) = data := by
    have := decodeElems_encodeElems (EventChannel.getTypeByteSize evc.m_type)
      data [] helems
    rw [← hlen]
    simpa using this
  simp only [encodeEvent, header18, List.append_assoc]
  simp only [decodeEvent, readField_exact, Option.some_bind]
  simp [hTTL, hTEXT, htag, hsrc', hsub', hidx', hts', hch',
    EventChannel.payloadSize, hpl, hdec]
  omega

/-- Round trip for the spike variant. -/
theorem roundtrip_spike (ts thr : Nat) (wave : List Nat) (spc : SpikeChannel)
    (h : wellFormedEvent (.spike ts thr wave) (.sp spc)) :
    decodeEvent (encodeEvent (.spike ts thr wave) (.sp spc)) (.sp spc)
      = some (.spike ts thr wave) := by
  simp only [wellFormedEvent, sourceBounds] at h
  obtain ⟨hlen, helems, hthr, hts, hsrc, hsub, hidx⟩ := h
  have hsrc' : spc.m_sourceNodeID % 256 ^ 2 = spc.m_sourceNodeID :=
    Nat.mod_eq_of_lt (by simpa using hsrc)
  have hsub' : spc.m_sourceSubNodeIndex % 256 ^ 2 = spc.m_sourceSubNodeIndex :=
    Nat.mod_eq_of_lt (by simpa using hsub)
  have hidx' : spc.m_sourceIndex % 256 ^ 2 = spc.m_sourceIndex :=
    Nat.mod_eq_of_lt (by simpa using hidx)
  have hts' : ts % 256 ^ 8 = ts := Nat.mod_eq_of_lt (by simpa using hts)
  have htag : electrodeTag spc.m_type % 256 ^ 1 = electrodeTag spc.m_type :=
    Nat.mod_eq_of_lt (by simpa using electrodeTag_lt spc.m_type)
  have hpl : (bytesLE 4 thr ++ encodeElems 4 wave).length
      = 4 + 4 * (spc.getNumChannels * spc.getTotalSamples) := by
    simp [List.length_append, bytesLE_length, encodeElems_length, hlen]
    omega
  have hthr' : unBytesLE ((bytesLE 4 thr ++ encodeElems 4 wave).take 4) = thr := by
    rw [List.take_left' (bytesLE_length 4 thr), unBytesLE_bytesLE,
      Nat.mod_eq_of_lt (by simpa using hthr)]
  have hwv : decodeElems 4 (spc.getNumChannels * spc.getTotalSamples)
      ((bytesLE 4 thr ++ encodeElems 4 wave).drop 4) = wave := by
    rw [List.drop_left' (bytesLE_length 4 thr), ← hlen]
    have := decodeElems_encodeElems 4 wave [] helems
    simpa using this
  simp only [encodeEvent, header18, List.append_assoc]
  simp only [decodeEvent, readField_exact, Option.some_bind]
  simp [htag, hsrc', hsub', hidx', hts', SpikeChannel.payloadSize, hpl, hthr', hwv]
  omega

/-- C2: for every event variant (TTL, text, binary, spike) and every event
built against a matching channel descriptor, deserializing the message
produced by serializing the event with that same descriptor yields the
original event, field by field. -/
theorem event_roundtrip (e : WireEvent) (d : Descriptor)
    (h : wellFormedEvent e d) :
    decodeEvent (encodeEvent e d) d = some e := by
  cases e with
  | ttl ts ch word =>
    cases d with
    | ev evc => exact roundtrip_ttl ts ch word evc h
    | sp spc => simp only [wellFormedEvent] at h
  | text ts ch txt =>
    cases d with
    | ev evc => exact roundtrip_text ts ch txt evc h
    | sp spc => simp only [wellFormedEvent] at h
  | binary ts ch data =>
    cases d with
    | ev evc => exact roundtrip_binary ts ch data evc h
    | sp spc => simp only [wellFormedEvent] at h
  | spike ts thr wave =>
    cases d with
    | ev evc => simp only [wellFormedEvent] at h
    | sp spc => exact roundtrip_spike ts thr wave spc h

/-- Witness for C2: round trips at concrete representative payloads — an
all-one and an all-zero TTL word, the empty text, a maximum-length binary
array containing the largest 32-bit value, and a spike waveform. -/
theorem event_roundtrip_witness :
    (wellFormedEvent (.ttl 100 3 [255]) (.ev sampleTTLChan)
      ∧ decodeEvent (encodeEvent (.ttl 100 3 [255]) (.ev sampleTTLChan))
          (.ev sampleTTLChan) = some (.ttl 100 3 [255]))
    ∧ (wellFormedEvent (.ttl 100 3 [0]) (.ev sampleTTLChan)
      ∧ decodeEvent (encodeEvent (.ttl 100 3 [0]) (.ev sampleTTLChan))
          (.ev sampleTTLChan) = some (.ttl 100 3 [0]))
    ∧ (wellFormedEvent (.text 7 1 []) (.ev sampleTextChan)
      ∧ decodeEvent (encodeEvent (.text 7 1 []) (.ev sampleTextChan))
          (.ev sampleTextChan) = some (.text 7 1 []))
    ∧ (wellFormedEvent (.binary 9 1 [0, 4294967295, 7]) (.ev sampleBinChan)
      ∧ decodeEvent (encodeEvent (.binary 9 1 [0, 4294967295, 7]) (.ev sampleBinChan))
          (.ev sampleBinChan) = some (.binary 9 1 [0, 4294967295, 7]))
    ∧ (wellFormedEvent (.spike 11 500 [1, 2, 3, 4, 5]) (.sp sampleSpikeChan)
      ∧ decodeEvent (encodeEvent (.spike 11 500 [1, 2, 3, 4, 5]) (.sp sampleSpikeChan))
          (.sp sampleSpikeChan) = some (.spike 11 500 [1, 2, 3, 4, 5])) := by
  have h1 : wellFormedEvent (.ttl 100 3 [255]) (.ev sampleTTLChan) := by
    simp only [wellFormedEvent, sourceBounds]
    decide
  have h2 : wellFormedEvent (.ttl 100 3 [0]) (.ev sampleTTLChan) := by
    simp only [wellFormedEvent, sourceBounds]
    decide
  have h3 : wellFormedEvent (.text 7 1 []) (.ev sampleTextChan) := by
    simp only [wellFormedEvent, sourceBounds]
    decide
  have h4 : wellFormedEvent (.binary 9 1 [0, 4294967295, 7]) (.ev sampleBinChan) := by
    simp only [wellFormedEvent, sourceBounds]
    decide
  have h5 : wellFormedEvent (.spike 11 500 [1, 2, 3, 4, 5]) (.sp sampleSpikeChan) := by
    simp only [wellFormedEvent, sourceBounds]
    decide
  exact ⟨⟨h1, event_roundtrip _ _ h1⟩, ⟨h2, event_roundtrip _ _ h2⟩,
    ⟨h3, event_roundtrip _ _ h3⟩, ⟨h4, event_roundtrip _ _ h4⟩,
    ⟨h5, event_roundtrip _ _ h5⟩⟩

end InfoObjects
